import Mathlib

/-!
Verification of the natural-language response pipeline of the
cybersecurity dashboard repository.

The development shallowly embeds the Python sources:

* `src/python/cortex_analyst_integration.py`
    (`query_cortex_analyst`, `display_cortex_results`,
     `display_auto_visualizations`, `display_visualization`),
* `src/python/streamlit_cybersecurity_demo.py`
    (`run_query`, `generate_ai_response`, the chatbot history section),
* `src/streamlit_app.py` and `src/streamlit/cybersecurity_ai_demo.py`
    (`get_anomaly_data` with its hard-coded sample fallback).

External effects (the warehouse session, the network) are passed in as
explicit outcome values; each UI call (`st.error`, `st.markdown`, charts)
becomes a render-instruction constructor, so every function is a pure,
executable Lean definition mirroring the Python control flow.
-/

/-- Python substring test: `strContains hay pat` models `pat in hay`. -/
def strContains (hay pat : String) : Bool :=
  (List.range (hay.data.length + 1)).any fun i => pat.data.isPrefixOf (hay.data.drop i)

/-- Python `str.lower()` (the questions handled here are ASCII). -/
def pyLower (s : String) : String :=
  ⟨s.data.map Char.toLower⟩

/-- Scalar cell of a pandas DataFrame: string, numeric, or datetime value. -/
inductive Cell where
  | str (v : String)
  | num (v : Rat)
  | time (v : String)
deriving DecidableEq, Repr

/-- A record (pandas row built from a dict): column name paired with value. -/
def Row : Type := List (String × Cell)

instance : DecidableEq Row := by
  unfold Row
  infer_instance

/-- Pandas column dtypes distinguished by the source code
(`select_dtypes(include=['number'])`, `['object', 'category']`). -/
inductive Dtype where
  | number
  | object
  | category
  | datetime
deriving DecidableEq, Repr

/-- A pandas DataFrame: named, typed columns plus row-major cell data. -/
structure Df where
  cols : List (String × Dtype)
  rows : List (List Cell)
deriving DecidableEq, Repr

/-- `pd.DataFrame()` with no columns and no rows. -/
def Df.empty : Df := ⟨[], []⟩

/-- Dtype that pandas infers for a cell value. -/
def inferDtype : Cell → Dtype
  | .str _ => .object
  | .num _ => .number
  | .time _ => .datetime

/-- `pd.DataFrame(list_of_records)`: columns from the first record,
values row by row. -/
def rowsToDf (rs : List Row) : Df :=
  match rs with
  | [] => Df.empty
  | r :: _ => ⟨r.map (fun kv => (kv.1, inferDtype kv.2)), rs.map (fun row => row.map Prod.snd)⟩

/-- Concrete chart call made by `display_visualization`
(`st.bar_chart` / `st.line_chart` / `st.area_chart` / `st.scatter_chart` /
`st.dataframe`). -/
inductive VizKind where
  | bar
  | line
  | area
  | scatter
  | table
deriving DecidableEq, Repr

/-- Outcome of `display_auto_visualizations`: which chart, if any, the
data-shape dispatch selects. -/
inductive AutoViz where
  | nothing
  | lineChart (dateCol : String) (numericCols : List String)
  | barChart (catCol : String) (numCol : String)
  | metrics (numericCols : List String)
deriving DecidableEq, Repr

/-- A `visualizations` entry of the analyst response:
`viz_config.get('type'/'data'/'title')` with each key possibly absent. -/
structure VizConfig where
  type : Option String
  data : Option (List Row)
  title : Option String
deriving DecidableEq

/-- Parsed JSON body returned by the `cortex_security_assistant` call;
each key may be absent (`response.get(key, default)`). -/
structure AnalystResponse where
  sql : Option String
  results : Option (List Row)
  explanation : Option String
  visualizations : Option (List VizConfig)
deriving DecidableEq

/-- Outcome of `session.sql(query, [question, context]).collect()` inside
`query_cortex_analyst`: the call raises, returns an empty result list, or
returns a parsed analyst response (a `json.loads` failure is a raise). -/
inductive SqlOutcome where
  | raises (msg : String)
  | empty
  | returns (resp : AnalystResponse)
deriving DecidableEq

/-- The dictionary built by `query_cortex_analyst`: `success` plus the
keys present on the respective branch (`None` models an absent key). -/
structure CortexResponse where
  success : Bool
  sql_query : Option String
  results : Option (List Row)
  explanation : Option String
  visualizations : Option (List VizConfig)
  raw_response : Option AnalystResponse
  error : Option String
deriving DecidableEq

/-- `query_cortex_analyst` (cortex_analyst_integration.py lines 22-56):
success dict when the warehouse call returns a response, error dict when
the result list is empty or any exception is raised. -/
def query_cortex_analyst (outcome : SqlOutcome) : CortexResponse :=
  match outcome with
  | .returns resp =>
      ⟨true, some (resp.sql.getD ""), some (resp.results.getD []),
       some (resp.explanation.getD ""), some (resp.visualizations.getD []),
       some resp, none⟩
  | .empty =>
      ⟨false, none, none, none, none, none, some "No response from Cortex Analyst"⟩
  | .raises msg =>
      ⟨false, none, none, none, none, none, some ("Cortex Analyst query failed: " ++ msg)⟩

/-- One Streamlit call emitted while rendering a cortex response. -/
inductive Display where
  | error (msg : String)
  | markdown (text : String)
  | info (text : String)
  | dataframe (df : Df)
  | code (sql : String)
  | autoViz (v : AutoViz)
  | chart (kind : VizKind) (df : Df)
deriving DecidableEq

/-- `display_auto_visualizations` (lines 100-136): empty frame renders
nothing; otherwise date columns + numerics give a line chart, else
categorical + numeric a bar chart, else a single row of numerics gives
metric cards, else nothing. -/
def display_auto_visualizations (df : Df) : AutoViz :=
  if df.rows.isEmpty || df.cols.isEmpty then .nothing
  else
    let numeric := (df.cols.filter fun c => c.2 == Dtype.number).map Prod.fst
    let categorical := (df.cols.filter fun c => c.2 == Dtype.object || c.2 == Dtype.category).map Prod.fst
    let dates := (df.cols.map Prod.fst).filter fun n =>
      strContains (pyLower n) "date" || strContains (pyLower n) "time"
    if !dates.isEmpty && !numeric.isEmpty then .lineChart (dates.headD "") numeric
    else if !categorical.isEmpty && !numeric.isEmpty then
      .barChart (categorical.headD "") (numeric.headD "")
    else if df.rows.length == 1 && !numeric.isEmpty then .metrics numeric
    else .nothing

/-- Chart chosen by `display_visualization` purely from the `type` string
(lines 151-160); any unrecognized type falls to `st.dataframe`. -/
def vizKindOf (t : String) : VizKind :=
  if t == "bar_chart" then .bar
  else if t == "line_chart" then .line
  else if t == "area_chart" then .area
  else if t == "scatter_chart" then .scatter
  else .table

/-- `display_visualization` (lines 138-160): title heading, then the
chart selected by `vizKindOf` applied to `pd.DataFrame(data)`. -/
def display_visualization (v : VizConfig) : List Display :=
  [Display.markdown ("#### " ++ v.title.getD "Chart"),
   Display.chart (vizKindOf (v.type.getD "table")) (rowsToDf (v.data.getD []))]

/-- `display_cortex_results` (lines 58-98): an error banner when
`success` is false; otherwise explanation, results table with automatic
charts, generated SQL, and any provided visualizations. -/
def display_cortex_results (r : CortexResponse) : List Display :=
  if r.success = false then
    [Display.error ("❌ " ++ r.error.getD "")]
  else
    (if r.explanation.getD "" = "" then [] else
      [Display.markdown "### 🧠 Analysis", Display.info (r.explanation.getD "")]) ++
    (if r.results.getD [] = [] then [] else
      [Display.markdown "### 📊 Results",
       Display.dataframe (rowsToDf (r.results.getD [])),
       Display.autoViz (display_auto_visualizations (rowsToDf (r.results.getD [])))]) ++
    (if r.sql_query.getD "" = "" then [] else
      [Display.code (r.sql_query.getD "")]) ++
    (if r.visualizations.getD [] = [] then [] else
      Display.markdown "### 📈 Visualizations" ::
        ((r.visualizations.getD []).map display_visualization).flatten)

/-- `run_query` (streamlit_cybersecurity_demo.py lines 44-52): execute a
SQL query against the session; any exception yields `pd.DataFrame()`.
The session is passed in as the `backend` mapping from query text to an
`Except` outcome; the `st.error` display and the five-minute result
cache are invisible in the returned value. -/
def run_query (backend : String → Except String Df) (query : String) : Df :=
  match backend query with
  | .ok result => result
  | .error _ => Df.empty

/-- Answer of the `"critical" and "incident"` branch
(streamlit_cybersecurity_demo.py lines 1262-1274). -/
def incidentsResponse : String :=
  "I found the current critical security incidents:\n\n**P0 Critical Incidents:**\n1. **Suspicious Login from Threat Actor IP** - User john.smith logged in from known APT29 infrastructure\n2. **Ransomware Indicators Detected** - Multiple file encryption activities on file server\n\n**Recommended Actions:**\n- Immediately isolate affected systems\n- Reset user credentials\n- Activate incident response team\n\nWould you like me to show the detailed incident analysis?"

/-- Answer of the `"vulnerabilit" and ("top" or "patch")` branch
(lines 1276-1289). -/
def vulnResponse : String :=
  "Here are the top 5 vulnerabilities requiring immediate attention:\n\n**Patch Immediately:**\n1. **CVE-2021-44228** (Log4j) - CVSS 10.0 - web-server-01\n2. **CVE-2022-22965** (Spring) - CVSS 9.8 - api-server-01\n3. **CVE-2021-26855** (Exchange) - CVSS 7.2 - backup-server-01\n\n**AI Recommendations:**\n- These vulnerabilities have known exploits in the wild\n- Assets are internet-facing with high exposure\n- Patch deployment estimated: 2-4 hours\n\nWould you like me to generate patch deployment scripts?"

/-- Answer of the `"insider threat"` branch (lines 1291-1308). -/
def insiderResponse : String :=
  "Users with highest insider threat scores:\n\n**High Risk (Score > 70):**\n1. **james.wilson** (Score: 100) - Terminated employee with recent access attempts\n2. **alex.brown** (Score: 45) - Unusual data access patterns, off-hours activity\n\n**Key Risk Factors:**\n- Terminated employee access attempts\n- Large data downloads outside business hours\n- Multiple login anomalies\n\n**Recommended Actions:**\n- Disable access for terminated employees\n- Review data access permissions\n- Monitor off-hours activities\n\nNeed more details on any specific user?"

/-- Answer of the country-keyword branch (lines 1310-1323). -/
def foreignResponse : String :=
  "Found login attempts from Russia and China:\n\n**Recent Foreign Login Attempts:**\n- **john.smith** - 203.0.113.45 (Russia) - 2 hours ago ⚠️ **THREAT INTEL MATCH**\n- **sarah.chen** - Multiple IPs (Russia) - Last 24 hours\n- **alex.brown** - 185.220.100.240 (China) - Failed attempts\n\n**Threat Intelligence Correlation:**\n- IPs match known APT infrastructure\n- Unusual access patterns detected\n- Recommended: Immediate credential reset\n\nWould you like me to show the detailed forensic timeline?"

/-- Answer of the `"transaction" and ("suspicious" or "5000")` branch
(lines 1325-1343). -/
def transactionResponse : String :=
  "Suspicious financial transactions above $5000:\n\n**High Risk Transactions:**\n1. **$9,999.99** - User_1234 to crypto exchange (Russia) - Fraud Score: 0.95\n2. **$15,000.00** - User_9999 luxury goods (Miami) - New device - Fraud Score: 0.92\n3. **$5,000.00** - User_5678 ATM withdrawal (China) - Fraud Score: 0.88\n\n**Risk Indicators:**\n- Foreign transaction locations\n- Unusual amounts for user patterns\n- New/unknown device fingerprints\n\n**Actions Taken:**\n- Transactions flagged for review\n- Account holders notified\n- Additional verification required\n\nNeed details on any specific transaction?"

/-- Answer of the `"network" and ("hour" or "last")` branch
(lines 1345-1360). -/
def networkResponse : String :=
  "Network security events from the last hour:\n\n**Threat Events Detected:**\n1. **Blocked C2 Communication** - 192.168.1.100 → 203.0.113.45 (APT infrastructure)\n2. **Botnet Activity** - 192.168.1.150 → 185.220.100.240 (Emotet C2)\n3. **Data Exfiltration** - Large transfer 10.0.0.45 → external IP\n\n**Actions Taken:**\n- Malicious traffic blocked by firewall\n- Affected systems isolated\n- Security team notified\n\n**Status:** 🔴 Active monitoring in progress\n\nWould you like me to show the network flow analysis?"

/-- Catch-all answer of the final `else` branch (lines 1362-1375); an
f-string embedding the original question. -/
def fallbackResponse (user_question : String) : String :=
  "I understand you\x27re asking about: \"" ++ user_question ++
  "\"\n\nI can help you with:\n- 🚨 Security incidents and alerts\n- 🔓 Vulnerability management\n- 🕵️ Threat hunting queries  \n- 💰 Fraud detection analysis\n- 👥 Insider threat assessment\n- 🌐 Network security events\n\nPlease try rephrasing your question or ask about any of these security topics. For complex analysis, I can also generate SQL queries to investigate your security data.\n\nWhat specific security information would you like me to help you find?"

/-- Condition of branch 1: `"critical" in q and "incident" in q`. -/
def condIncidents (question_lower : String) : Bool :=
  strContains question_lower "critical" && strContains question_lower "incident"

/-- Condition of branch 2:
`"vulnerabilit" in q and ("top" in q or "patch" in q)`. -/
def condVuln (question_lower : String) : Bool :=
  strContains question_lower "vulnerabilit" &&
    (strContains question_lower "top" || strContains question_lower "patch")

/-- Condition of branch 3: `"insider threat" in q`. -/
def condInsider (question_lower : String) : Bool :=
  strContains question_lower "insider threat"

/-- Condition of branch 4:
`any(country in q for country in ["russia", "china", "ru", "cn"])`. -/
def condForeign (question_lower : String) : Bool :=
  ["russia", "china", "ru", "cn"].any fun country => strContains question_lower country

/-- Condition of branch 5:
`"transaction" in q and ("suspicious" in q or "5000" in q)`. -/
def condTransaction (question_lower : String) : Bool :=
  strContains question_lower "transaction" &&
    (strContains question_lower "suspicious" || strContains question_lower "5000")

/-- Condition of branch 6:
`"network" in q and ("hour" in q or "last" in q)`. -/
def condNetwork (question_lower : String) : Bool :=
  strContains question_lower "network" &&
    (strContains question_lower "hour" || strContains question_lower "last")

/-- `generate_ai_response` (streamlit_cybersecurity_demo.py lines
1257-1375): lowercase the question, walk the keyword branches in source
order, first match wins, otherwise the catch-all f-string. -/
def generate_ai_response (user_question : String) : String :=
  let question_lower := pyLower user_question
  if condIncidents question_lower then incidentsResponse
  else if condVuln question_lower then vulnResponse
  else if condInsider question_lower then insiderResponse
  else if condForeign question_lower then foreignResponse
  else if condTransaction question_lower then transactionResponse
  else if condNetwork question_lower then networkResponse
  else fallbackResponse user_question

/-- One `st.session_state.chat_history` entry: a role/content dict. -/
structure ChatMessage where
  role : String
  content : String
deriving DecidableEq

/-- `st.session_state.chat_history.append(message)` (lines 1118, 1124). -/
def appendMessage (chat_history : List ChatMessage) (m : ChatMessage) : List ChatMessage :=
  chat_history ++ [m]

/-- The send handler (lines 1115-1127): when the input is non-empty
(Python truthiness), append the user message and then the generated
assistant message; otherwise the history is unchanged. -/
def chatStep (chat_history : List ChatMessage) (user_input : String) : List ChatMessage :=
  if user_input = "" then chat_history
  else
    appendMessage (appendMessage chat_history ⟨"user", user_input⟩)
      ⟨"assistant", generate_ai_response user_input⟩

/-- The Clear Chat History button handler (lines 1139-1141):
`st.session_state.chat_history = []`. -/
def clearChat (chat_history : List ChatMessage) : List ChatMessage :=
  let _ := chat_history
  []

/-- The history display loop (lines 1132-1136): one markdown line per
entry, in list order. -/
def renderChat (chat_history : List ChatMessage) : List String :=
  chat_history.map fun m =>
    if m.role = "user" then "**🧑 You:** " ++ m.content
    else "**🤖 Security AI:** " ++ m.content

namespace SpecModel

/-- Route enumeration of spec section 4.1. -/
inductive SpecRoute where
  | incidents
  | users
  | threats
  | vulnerabilities
  | general
deriving DecidableEq, Repr

/-- Classifier written from the words of spec section 4.1, kept separate
from the source embedding so the two can be compared: case-insensitive
substring match against fixed keyword sets, tested in the fixed priority
order incidents, users, threats, vulnerabilities, else general. -/
def specClassify (question : String) : SpecRoute :=
  let l := pyLower question
  if ["incident", "alert", "breach"].any (fun k => strContains l k) then .incidents
  else if ["user", "login", "authentication"].any (fun k => strContains l k) then .users
  else if ["threat", "malware", "attack"].any (fun k => strContains l k) then .threats
  else if ["vuln", "cve", "patch"].any (fun k => strContains l k) then .vulnerabilities
  else .general

end SpecModel

namespace StreamlitApp

/-- Column list of the `GITHUB_LOGIN_ANOMALY_DETECTION` SELECT inside
`get_anomaly_data` (streamlit_app.py lines 98-113); the warehouse
returns unquoted identifiers in upper case. -/
def anomalyQueryColumns : List String :=
  ["USERNAME", "TIMESTAMP", "CURRENT_COUNTRY", "CURRENT_HOUR",
   "ACTIVITY_COUNT", "LINES_CHANGED", "SENSITIVE_REPO_ACCESS",
   "ANOMALY_SCORE", "CLASSIFICATION", "ANOMALY_INDICATORS"]

/-- The hard-coded sample frame built in the except branch of
`get_anomaly_data` (streamlit_app.py lines 121-136), row-major. -/
def sampleAnomalyDf : Df :=
  ⟨[("USERNAME", .object), ("TIMESTAMP", .datetime), ("CURRENT_COUNTRY", .object),
    ("CURRENT_HOUR", .number), ("ACTIVITY_COUNT", .number), ("LINES_CHANGED", .number),
    ("SENSITIVE_REPO_ACCESS", .number), ("ANOMALY_SCORE", .number),
    ("CLASSIFICATION", .object), ("ANOMALY_INDICATORS", .object)],
   [[.str "john.smith", .time "2024-01-21 02:30:15", .str "CN", .num 2, .num 15,
     .num 5000, .num 1, .num 12, .str "HIGH_ANOMALY",
     .str "unusual_hour, unusual_location, large_code_changes, sensitive_repo_access"],
    [.str "sarah.chen", .time "2024-01-24 14:22:10", .str "RU", .num 14, .num 0,
     .num 0, .num 0, .num 7, .str "MEDIUM_ANOMALY",
     .str "suspicious_location"],
    [.str "john.smith", .time "2024-01-21 03:15:22", .str "CN", .num 3, .num 12,
     .num 500, .num 1, .num 9, .str "HIGH_ANOMALY",
     .str "unusual_hour, unusual_location, sensitive_repo_access"]]⟩

/-- `get_anomaly_data` (streamlit_app.py lines 93-136): run the anomaly
query; on any exception display an error and return the sample frame. -/
def get_anomaly_data (queryOutcome : Except String Df) : Df :=
  match queryOutcome with
  | .ok df => df
  | .error _ => sampleAnomalyDf

end StreamlitApp

namespace CyberDemo

/-- Column list of the `GITHUB_LOGIN_ANOMALY_DETECTION` SELECT inside
`get_anomaly_data` (streamlit/cybersecurity_ai_demo.py lines 101-115);
the warehouse returns unquoted identifiers in upper case. -/
def anomalyQueryColumns : List String :=
  ["USERNAME", "TIMESTAMP", "CURRENT_COUNTRY", "CURRENT_HOUR",
   "ACTIVITY_COUNT", "LINES_CHANGED", "SENSITIVE_REPO_ACCESS",
   "ANOMALY_SCORE", "CLASSIFICATION", "ANOMALY_INDICATORS"]

/-- The hard-coded sample frame built in the except branch of
`get_anomaly_data` (streamlit/cybersecurity_ai_demo.py lines 122-140). -/
def sampleAnomalyDf : Df :=
  ⟨[("USERNAME", .object), ("TIMESTAMP", .datetime), ("CURRENT_COUNTRY", .object),
    ("CURRENT_HOUR", .number), ("ACTIVITY_COUNT", .number), ("LINES_CHANGED", .number),
    ("SENSITIVE_REPO_ACCESS", .number), ("ANOMALY_SCORE", .number),
    ("CLASSIFICATION", .object), ("ANOMALY_INDICATORS", .object)],
   [[.str "john.smith", .time "2024-01-21 02:30:15", .str "CN", .num 2, .num 15,
     .num 5000, .num 1, .num 12, .str "HIGH_ANOMALY",
     .str "[\x27unusual_hour\x27, \x27unusual_location\x27, \x27large_code_changes\x27, \x27sensitive_repo_access\x27]"],
    [.str "sarah.chen", .time "2024-01-24 14:22:10", .str "RU", .num 14, .num 0,
     .num 0, .num 0, .num 7, .str "MEDIUM_ANOMALY",
     .str "[\x27suspicious_location\x27]"],
    [.str "mike.rodriguez", .time "2024-01-23 16:45:30", .str "US", .num 16, .num 3,
     .num 150, .num 0, .num 1, .str "NORMAL",
     .str "[]"],
    [.str "john.smith", .time "2024-01-21 03:15:22", .str "CN", .num 3, .num 12,
     .num 500, .num 1, .num 9, .str "HIGH_ANOMALY",
     .str "[\x27unusual_hour\x27, \x27unusual_location\x27, \x27sensitive_repo_access\x27]"],
    [.str "lisa.wang", .time "2024-01-22 09:30:00", .str "US", .num 9, .num 2,
     .num 80, .num 0, .num 0, .str "NORMAL",
     .str "[]"]]⟩

/-- `get_anomaly_data` (streamlit/cybersecurity_ai_demo.py lines
95-140): run the anomaly query; on any exception display an error and
return the sample frame. -/
def get_anomaly_data (queryOutcome : Except String Df) : Df :=
  match queryOutcome with
  | .ok df => df
  | .error _ => sampleAnomalyDf

end CyberDemo

/-! Theorems. -/

/-- Helper: a string append whose left part is non-empty is non-empty. -/
theorem append_left_ne_empty (s t : String) (h : s ≠ "") : s ++ t ≠ "" := by
  intro hc
  apply h
  cases s with
  | mk sd =>
    cases t with
    | mk td =>
      have hd : sd ++ td = [] := congrArg String.data hc
      have h1 : sd = [] := (List.append_eq_nil.mp hd).1
      rw [h1]

/-- C1: every `query_cortex_analyst` response is in exactly one of two
states: `success = true` with a populated `results` key and no `error`
key, or `success = false` with a populated `error` key and no `results`
key; never both, neither, or a partial combination. -/
theorem c1_response_exactly_one_state (o : SqlOutcome) :
    Xor'
      ((query_cortex_analyst o).success = true ∧
        ((query_cortex_analyst o).results).isSome = true ∧
        (query_cortex_analyst o).error = none)
      ((query_cortex_analyst o).success = false ∧
        ((query_cortex_analyst o).error).isSome = true ∧
        (query_cortex_analyst o).results = none) := by
  cases o <;> simp [query_cortex_analyst, Xor']

/-- C2 counterexample: when the remote analyst call raises (for example
a network failure), `query_cortex_analyst` does not fall back to any
local query — it returns `success = false` — and `display_cortex_results`
presents exactly an error banner to the end user. -/
theorem c2_counterexample :
    (query_cortex_analyst (SqlOutcome.raises "network failure")).success = false ∧
    display_cortex_results (query_cortex_analyst (SqlOutcome.raises "network failure")) =
      [Display.error "❌ Cortex Analyst query failed: network failure"] :=
  ⟨rfl, rfl⟩

/-- C2 amended: when the remote analyst call raises, or returns an empty
result, `query_cortex_analyst` returns a `success = false` dictionary
carrying only an error message — there is no catalog-query fallback —
and `display_cortex_results` renders that failure to the end user as an
error banner. -/
theorem c2_amended_failure_surfaced :
    (∀ msg, query_cortex_analyst (SqlOutcome.raises msg) =
      ⟨false, none, none, none, none, none,
       some ("Cortex Analyst query failed: " ++ msg)⟩) ∧
    (∀ msg, display_cortex_results (query_cortex_analyst (SqlOutcome.raises msg)) =
      [Display.error ("❌ " ++ ("Cortex Analyst query failed: " ++ msg))]) ∧
    display_cortex_results (query_cortex_analyst SqlOutcome.empty) =
      [Display.error "❌ No response from Cortex Analyst"] :=
  ⟨fun _ => rfl, fun _ => rfl, rfl⟩

/-- C3 counterexample: the keyword sets claimed for the classifier (spec
section 4.1, embedded as `SpecModel.specClassify`) would route
"Which users have unusual login patterns?" to `users`, but the code has
no users branch at all: `generate_ai_response` answers that question
with the generic catch-all response. -/
theorem c3_counterexample :
    SpecModel.specClassify "Which users have unusual login patterns?" =
      SpecModel.SpecRoute.users ∧
    generate_ai_response "Which users have unusual login patterns?" =
      fallbackResponse "Which users have unusual login patterns?" :=
  ⟨by decide, rfl⟩

/-- C3 amended: the responder lowercases the question and tests fixed
keyword conditions by case-insensitive substring match in a fixed source
order — (critical and incident), then (vulnerabilit and (top or patch)),
then insider threat, then (russia or china or ru or cn), then
(transaction and (suspicious or 5000)), then (network and (hour or
last)) — and the first match wins: any question containing "critical"
and "incident" gets the incidents answer regardless of later keywords,
so "Show me critical incidents and malware" yields the incidents answer;
but there is no users route, and "Which users have unusual login
patterns?" matches no branch and yields the catch-all answer. -/
theorem c3_amended_first_match (q : String)
    (h : condIncidents (pyLower q) = true) :
    generate_ai_response "Show me critical incidents and malware" = incidentsResponse ∧
    generate_ai_response "Which users have unusual login patterns?" =
      fallbackResponse "Which users have unusual login patterns?" ∧
    generate_ai_response q = incidentsResponse := by
  refine ⟨rfl, rfl, ?_⟩
  simp [generate_ai_response, h]

/-- C3 witness: the amended first-match rule applied at a concrete
question containing both keywords. -/
theorem c3_witness :
    condIncidents (pyLower "Show me critical incidents and malware") = true ∧
    generate_ai_response "Show me critical incidents and malware" = incidentsResponse :=
  ⟨by rfl, (c3_amended_first_match "Show me critical incidents and malware" (by rfl)).2.2⟩

/-- C4 counterexample: for the question "hello" (general route per the
spec classifier) the code does not produce any failed response: the
chatbot answers with the catch-all guidance text, appended to the
history as an ordinary assistant message, and that answer is non-empty —
there is no `succeeded` flag and no `NoFallbackForRoute` error value
anywhere in this path. -/
theorem c4_counterexample :
    SpecModel.specClassify "hello" = SpecModel.SpecRoute.general ∧
    generate_ai_response "hello" = fallbackResponse "hello" ∧
    chatStep [] "hello" = [⟨"user", "hello"⟩, ⟨"assistant", fallbackResponse "hello"⟩] ∧
    fallbackResponse "hello" ≠ "" :=
  ⟨by decide, rfl, rfl, by decide⟩

/-- C4 amended: a question matching no keyword branch (for example
"hello") is answered by the final catch-all branch, which returns the
guidance text listing the supported security topics as a normal answer;
the send handler appends it to the chat history as a regular assistant
message, not as an error. -/
theorem c4_amended_catchall_plain_answer :
    generate_ai_response "hello" = fallbackResponse "hello" ∧
    (∀ hist, chatStep hist "hello" =
      hist ++ [⟨"user", "hello"⟩, ⟨"assistant", fallbackResponse "hello"⟩]) := by
  have hgen : generate_ai_response "hello" = fallbackResponse "hello" := rfl
  refine ⟨hgen, fun hist => ?_⟩
  unfold chatStep
  rw [if_neg (by decide : ¬ ("hello" : String) = "")]
  simp [appendMessage, hgen]

/-- C5: rendering an empty result frame produces the empty-state
instruction (nothing is drawn): `display_auto_visualizations` returns
its empty outcome before any column-shape dispatch or chart choice is
consulted. -/
theorem c5_empty_frame_no_chart (df : Df) (h : df.rows = []) :
    display_auto_visualizations df = AutoViz.nothing := by
  unfold display_auto_visualizations
  rw [h]
  simp

/-- C5 witness: the empty-frame rule at a concrete frame that would
otherwise qualify for a metrics rendering. -/
theorem c5_witness :
    display_auto_visualizations ⟨[("ANOMALY_SCORE", Dtype.number)], []⟩ = AutoViz.nothing :=
  c5_empty_frame_no_chart ⟨[("ANOMALY_SCORE", Dtype.number)], []⟩ rfl

/-- C6 counterexample: a non-empty single-column dataset with hint
`bar_chart` does not satisfy the bar chart's claimed two-column
requirement, yet `display_visualization` renders a bar chart, not the
claimed tabular fallback: the code never inspects column counts. -/
theorem c6_counterexample :
    display_visualization ⟨some "bar_chart", some [[("EVENTS", Cell.num 7)]], some "Chart"⟩ =
      [Display.markdown "#### Chart",
       Display.chart VizKind.bar (rowsToDf [[("EVENTS", Cell.num 7)]])] ∧
    VizKind.bar ≠ VizKind.table :=
  ⟨rfl, by decide⟩

/-- C6 amended: `display_visualization` dispatches on the `type` string
only, never on the data shape: every unrecognized type — including
`pie` — renders as a plain table for any rows (so three-column data with
hint pie does fall back to the tabular rendering, as a special case),
while a recognized type such as `bar_chart` renders that chart for any
rows, even a single column; the function is total, so no input raises. -/
theorem c6_amended_type_string_dispatch :
    (∀ d t, display_visualization ⟨some "pie", some d, t⟩ =
      [Display.markdown ("#### " ++ t.getD "Chart"),
       Display.chart VizKind.table (rowsToDf d)]) ∧
    display_visualization
        ⟨some "pie",
         some [[("SOURCE_COUNTRY", Cell.str "RU"), ("THREAT_TYPE", Cell.str "c2"),
                ("EVENTS", Cell.num 12)]],
         some "Threat Landscape"⟩ =
      [Display.markdown "#### Threat Landscape",
       Display.chart VizKind.table
         (rowsToDf [[("SOURCE_COUNTRY", Cell.str "RU"), ("THREAT_TYPE", Cell.str "c2"),
                     ("EVENTS", Cell.num 12)]])] ∧
    (∀ d t, display_visualization ⟨some "bar_chart", some d, t⟩ =
      [Display.markdown ("#### " ++ t.getD "Chart"),
       Display.chart VizKind.bar (rowsToDf d)]) :=
  ⟨fun _ _ => rfl, rfl, fun _ _ => rfl⟩

/-- C7 counterexample: the Clear Chat History handler is an operation of
the log that removes previously appended entries: it maps a non-empty
history to the empty history. -/
theorem c7_counterexample :
    clearChat [⟨"user", "Show me all critical security incidents from today"⟩] = [] ∧
    ([⟨"user", "Show me all critical security incidents from today"⟩] : List ChatMessage) ≠ [] :=
  ⟨rfl, by decide⟩

/-- C7 amended: appends are ordered and non-destructive — appending E1
then E2 yields the history extended by [E1, E2] in submission order, a
send step appends the user message then the assistant message at the
end, and every append leaves the existing prefix intact — but the Clear
Chat History operation evicts the whole log, so the log is not free of
removal operations. -/
theorem c7_amended_ordered_but_clearable (hist : List ChatMessage)
    (m1 m2 : ChatMessage) (q : String) (hq : ¬ q = "") :
    appendMessage (appendMessage hist m1) m2 = hist ++ [m1, m2] ∧
    chatStep hist q = hist ++ [⟨"user", q⟩, ⟨"assistant", generate_ai_response q⟩] ∧
    (∀ h m, ∃ tail, appendMessage h m = h ++ tail) ∧
    clearChat hist = [] := by
  refine ⟨by simp [appendMessage], ?_, fun h m => ⟨[m], rfl⟩, rfl⟩
  unfold chatStep
  rw [if_neg hq]
  simp [appendMessage]

/-- C7 witness: the ordered-append rule applied to the empty history
with a concrete non-empty question. -/
theorem c7_witness :
    appendMessage (appendMessage [] ⟨"user", "hi"⟩) ⟨"assistant", "ok"⟩ =
      [] ++ [⟨"user", "hi"⟩, ⟨"assistant", "ok"⟩] ∧
    chatStep [] "hi" =
      [] ++ [⟨"user", "hi"⟩, ⟨"assistant", generate_ai_response "hi"⟩] ∧
    (∀ h m, ∃ tail, appendMessage h m = h ++ tail) ∧
    clearChat [] = [] :=
  c7_amended_ordered_but_clearable [] ⟨"user", "hi"⟩ ⟨"assistant", "ok"⟩ "hi" (by decide)

/-- C8: `run_query` is total over its error branch — whenever the
backend execution fails, the exception is absorbed and the empty
DataFrame is returned instead of propagating; on success the backend's
frame is returned unchanged, so every call returns a DataFrame. -/
theorem c8_run_query_absorbs (backend : String → Except String Df) (query : String) :
    (∀ e, backend query = Except.error e → run_query backend query = Df.empty) ∧
    (∀ df, backend query = Except.ok df → run_query backend query = df) := by
  constructor
  · intro e he
    simp [run_query, he]
  · intro df hdf
    simp [run_query, hdf]

/-- C8 witness: a backend that always raises yields the empty frame. -/
theorem c8_witness :
    run_query (fun _ => Except.error "connection lost") "SELECT 1" = Df.empty :=
  (c8_run_query_absorbs (fun _ => Except.error "connection lost") "SELECT 1").1
    "connection lost" rfl

/-- C9: in both dashboard scripts, `get_anomaly_data` never propagates a
backend failure: on any query error it returns the hard-coded non-empty
sample frame whose column names equal the real query's SELECT list, and
on success it returns the live frame unchanged — so the return value has
the same schema either way. -/
theorem c9_getters_fallback_schema :
    (∀ e, StreamlitApp.get_anomaly_data (Except.error e) = StreamlitApp.sampleAnomalyDf) ∧
    StreamlitApp.sampleAnomalyDf.rows.length = 3 ∧
    StreamlitApp.sampleAnomalyDf.cols.map Prod.fst = StreamlitApp.anomalyQueryColumns ∧
    (∀ df, StreamlitApp.get_anomaly_data (Except.ok df) = df) ∧
    (∀ e, CyberDemo.get_anomaly_data (Except.error e) = CyberDemo.sampleAnomalyDf) ∧
    CyberDemo.sampleAnomalyDf.rows.length = 5 ∧
    CyberDemo.sampleAnomalyDf.cols.map Prod.fst = CyberDemo.anomalyQueryColumns ∧
    (∀ df, CyberDemo.get_anomaly_data (Except.ok df) = df) :=
  ⟨fun _ => rfl, rfl, rfl, fun _ => rfl, fun _ => rfl, rfl, rfl, fun _ => rfl⟩

/-- C10: `generate_ai_response` is a pure total function of the question
text (it is an executable Lean function of the string alone, hence
deterministic and free of I/O); every answer is non-empty, and any
question matching none of the six keyword branches is answered by the
final catch-all branch. -/
theorem c10_total_pure_responder :
    (∀ q, generate_ai_response q ≠ "") ∧
    (∀ q, condIncidents (pyLower q) = false → condVuln (pyLower q) = false →
      condInsider (pyLower q) = false → condForeign (pyLower q) = false →
      condTransaction (pyLower q) = false → condNetwork (pyLower q) = false →
      generate_ai_response q = fallbackResponse q) := by
  constructor
  · intro q
    simp only [generate_ai_response, ne_eq]
    repeat' split
    any_goals decide
    exact append_left_ne_empty _ _ (append_left_ne_empty _ _ (by decide))
  · intro q h1 h2 h3 h4 h5 h6
    simp [generate_ai_response, h1, h2, h3, h4, h5, h6]

/-- C10 witness: the responder at "hello", which matches no branch. -/
theorem c10_witness :
    generate_ai_response "hello" ≠ "" ∧
    generate_ai_response "hello" = fallbackResponse "hello" :=
  ⟨c10_total_pure_responder.1 "hello",
   c10_total_pure_responder.2 "hello" (by rfl) (by rfl) (by rfl) (by rfl) (by rfl) (by rfl)⟩
